import Mathlib

/-!
Verification of `update_cities.py` from VinDuv/GPSInfo.

The script is a single linear pipeline:
  1. `requests.get(URL)` then `res.raise_for_status()`;
  2. `csv.reader(res.content.decode('utf-8').splitlines())`, then
     `next(reader)` to discard the header row;
  3. for each remaining row, `city, _, lat, long, _, _, _, _, _ = row`
     followed by `float(lat)` / `float(long)`, appending
     `{'city': city, 'lat': ..., 'long': ...}` to `cities`;
  4. `plistlib.dump(cities, out_file, fmt=plistlib.FMT_BINARY)` to the fixed
     path `OUT_FILE`, opened with mode `'wb'` (truncate/overwrite).

Embedding choices:
  * The HTTP response is modelled by its final status code (a `Nat`) and the
    sequence of CSV rows the reader yields from the decoded body, i.e. a
    `List (List String)`; an empty body yields no rows at all (Python's
    `"".splitlines()` is `[]`, so the reader is empty).
  * `float(·)` is modelled by an arbitrary parameter `pf : String → Option α`
    (`none` exactly when Python's `float` would raise `ValueError`); every
    pipeline theorem is parametric in `pf`, and witnesses instantiate it
    with a concrete executable decimal parser producing rationals.
  * `plistlib.dump` applies a fixed deterministic binary encoding to the
    record list, so the content of the output file is modelled by the record
    list it encodes: the file system cell at `OUT_FILE` is an
    `Option (List (CityRecord α))` (`none` = the file does not exist).
-/

namespace GPSInfo

/-- One output record, as appended to `cities`:
`{'city': city, 'lat': float(lat), 'long': float(long)}`. -/
structure CityRecord (α : Type) where
  city : String
  lat : α
  long : α
  deriving DecidableEq

/-- The loop body on one CSV row:
`city, _, lat, long, _, _, _, _, _ = row` (which raises `ValueError` unless
the row has exactly 9 fields) followed by `float(lat)` and `float(long)`
(which raise `ValueError` on text that is not a valid number, modelled by
`pf` returning `none`).  `none` means the iteration raises and aborts. -/
def processRow {α : Type} (pf : String → Option α) : List String → Option (CityRecord α)
  | [city, _, lat, long, _, _, _, _, _] =>
    match pf lat, pf long with
    | some la, some lo => some ⟨city, la, lo⟩
    | _, _ => none
  | _ => none

/-- The `for row in reader` loop: processes the data rows in order, building
`cities`; the first raising row aborts the whole loop (and the run). -/
def processRows {α : Type} (pf : String → Option α) :
    List (List String) → Option (List (CityRecord α))
  | [] => some []
  | r :: rs =>
    match processRow pf r, processRows pf rs with
    | some c, some cs => some (c :: cs)
    | _, _ => none

/-- The method `requests.Response.raise_for_status` raises `HTTPError` exactly
when the status code is a 4xx client error or a 5xx server error, i.e. in
`[400, 600)`; informational, success and redirect statuses do not raise. -/
def raisesForStatus (status : Nat) : Prop :=
  400 ≤ status ∧ status < 600

instance (status : Nat) : Decidable (raisesForStatus status) :=
  inferInstanceAs (Decidable (400 ≤ status ∧ status < 600))

/-- Outcome of one run of the script. -/
inductive RunResult (α : Type) where
  /-- `res.raise_for_status()` raised `HTTPError`. -/
  | httpError (status : Nat)
  /-- `next(reader)` raised `StopIteration`: the body had no lines. -/
  | headerMissing
  /-- Row unpacking or `float` raised `ValueError` on some data row. -/
  | malformedRow
  /-- The run completed and wrote the record list to `OUT_FILE`. -/
  | ok (cities : List (CityRecord α))
  deriving DecidableEq

/-- The whole script, from `res.raise_for_status()` to `plistlib.dump`.
Takes the response status, the CSV rows of the decoded body and the prior
content of `OUT_FILE`; returns the outcome and the final content of
`OUT_FILE`.  The loop over the data rows runs to completion before
`OUT_FILE.open('wb')` is reached, so on any failure the file is untouched. -/
def run {α : Type} (pf : String → Option α) (status : Nat)
    (body : List (List String)) (outFile : Option (List (CityRecord α))) :
    RunResult α × Option (List (CityRecord α)) :=
  if raisesForStatus status then (RunResult.httpError status, outFile)
  else
    match body with
    | [] => (RunResult.headerMissing, outFile)
    | _hdr :: rows =>
      match processRows pf rows with
      | none => (RunResult.malformedRow, outFile)
      | some cities => (RunResult.ok cities, some cities)

/-- The spec's per-row failure condition on the latitude/longitude fields:
the field at position 2 or at position 3 is present but does not parse as a
number (column positions as in the source's unpacking). -/
def latLongBad {α : Type} (pf : String → Option α) (r : List String) : Bool :=
  (r[2]?.bind pf).isNone || (r[3]?.bind pf).isNone

/-- Digits-only numeral reader used by the concrete witness parser. -/
def natOfDigits (cs : List Char) : Option Nat :=
  if cs.isEmpty then none
  else cs.foldl
    (fun acc c => acc.bind fun n =>
      if c.isDigit then some (10 * n + (c.toNat - 48)) else none)
    (some 0)

/-- Splits a character list at every occurrence of `sep` (fields may be
empty), used by the concrete witness parser. -/
def splitFields (sep : Char) : List Char → List (List Char)
  | [] => [[]]
  | c :: cs =>
    if c = sep then [] :: splitFields sep cs
    else
      match splitFields sep cs with
      | [] => [[c]]
      | f :: rest => (c :: f) :: rest

/-- An exact decimal number `mantissa / 10 ^ fracDigits`, the concrete value
type used to instantiate the abstract coordinate type `α` in witnesses. -/
structure Decimal where
  mantissa : ℤ
  fracDigits : ℕ
  deriving DecidableEq

/-- A concrete executable number parser on plain decimal literals
(`"35.6897"`, `"-7"`), producing exact `Decimal` values.  It instantiates the
abstract parameter `pf` in witnesses; Python's `float` accepts a wider
grammar, but every pipeline theorem is parametric in the parser. -/
def parseDecimal (s : String) : Option Decimal :=
  let core (cs : List Char) : Option Decimal :=
    match splitFields '.' cs with
    | [w] => (natOfDigits w).map (fun n => ⟨n, 0⟩)
    | [w, f] =>
      match natOfDigits w, natOfDigits f with
      | some wn, some fn => some ⟨wn * 10 ^ f.length + fn, f.length⟩
      | _, _ => none
    | _ => none
  match s.toList with
  | '-' :: rest => (core rest).map (fun d => ⟨-d.mantissa, d.fracDigits⟩)
  | cs => core cs

/-! ### Concrete example data used by witnesses and counterexamples -/

/-- A header row like the one the dataset starts with. -/
def exHeader : List String :=
  ["city", "city_ascii", "lat", "lng", "pop", "country", "iso2", "iso3", "province"]

/-- Two well-formed 9-column data rows. -/
def exRows : List (List String) :=
  [["Tokyo", "Japan", "35.6897", "139.6922", "p", "q", "u", "v", "w"],
   ["Paris", "France", "48.8567", "2.3522", "p", "q", "u", "v", "w"]]

/-- The records the pipeline produces from `exRows`. -/
def exRecords : List (CityRecord Decimal) :=
  [⟨"Tokyo", ⟨356897, 4⟩, ⟨1396922, 4⟩⟩, ⟨"Paris", ⟨488567, 4⟩, ⟨23522, 4⟩⟩]

/-- A row with 10 columns whose coordinate fields are valid numbers. -/
def exTenColRow : List String :=
  ["a", "b", "1", "2", "x", "y", "z", "u", "v", "w"]

/-- A 9-column row whose latitude field is not a number. -/
def exBadRow : List String :=
  ["Oz", "Nowhere", "abc", "1.0", "p", "q", "u", "v", "w"]

/-! ### Helper lemmas -/

/-- A single row fails exactly when it does not have exactly 9 fields or its
latitude/longitude field does not parse. -/
theorem processRow_eq_none_iff {α : Type} (pf : String → Option α) (r : List String) :
    processRow pf r = none ↔ (r.length ≠ 9 ∨ latLongBad pf r = true) := by
  rcases r with _ | ⟨c0, _ | ⟨c1, _ | ⟨c2, _ | ⟨c3, _ | ⟨c4, _ | ⟨c5, _ | ⟨c6, _ | ⟨c7, _ | ⟨c8, _ | ⟨c9, t⟩⟩⟩⟩⟩⟩⟩⟩⟩⟩
  case nil => simp [processRow, latLongBad]
  case cons.nil => simp [processRow, latLongBad]
  case cons.cons.nil => simp [processRow, latLongBad]
  case cons.cons.cons.nil =>
    simp [processRow, latLongBad]
  case cons.cons.cons.cons.nil =>
    simp [processRow, latLongBad]
  case cons.cons.cons.cons.cons.nil =>
    simp [processRow, latLongBad]
  case cons.cons.cons.cons.cons.cons.nil =>
    simp [processRow, latLongBad]
  case cons.cons.cons.cons.cons.cons.cons.nil =>
    simp [processRow, latLongBad]
  case cons.cons.cons.cons.cons.cons.cons.cons.nil =>
    simp [processRow, latLongBad]
  case cons.cons.cons.cons.cons.cons.cons.cons.cons.nil =>
    rcases h2 : pf c2 with _ | la <;> rcases h3 : pf c3 with _ | lo <;>
      simp [processRow, latLongBad, h2, h3]
  case cons.cons.cons.cons.cons.cons.cons.cons.cons.cons =>
    have hlen : (c0 :: c1 :: c2 :: c3 :: c4 :: c5 :: c6 :: c7 :: c8 :: c9 :: t).length ≠ 9 := by
      simp
    simp [processRow, hlen]

/-- The row loop fails exactly when some row fails. -/
theorem processRows_eq_none_iff {α : Type} (pf : String → Option α)
    (rows : List (List String)) :
    processRows pf rows = none ↔ ∃ r ∈ rows, processRow pf r = none := by
  induction rows with
  | nil => simp [processRows]
  | cons r rs ih =>
    rcases hr : processRow pf r with _ | c <;>
      rcases hrs : processRows pf rs with _ | cs <;>
        simp [processRows, hr, hrs, ← ih]

/-- A single failing row aborts the whole loop. -/
theorem processRows_eq_none_of_mem {α : Type} (pf : String → Option α)
    (rows : List (List String)) (r : List String) (hmem : r ∈ rows)
    (hr : processRow pf r = none) : processRows pf rows = none :=
  (processRows_eq_none_iff pf rows).mpr ⟨r, hmem, hr⟩

/-- A successful loop yields one record per row, in row order. -/
theorem processRows_length_get {α : Type} (pf : String → Option α)
    (rows : List (List String)) (cs : List (CityRecord α))
    (h : processRows pf rows = some cs) :
    cs.length = rows.length ∧
    ∀ i (h1 : i < rows.length) (h2 : i < cs.length),
      processRow pf (rows.get ⟨i, h1⟩) = some (cs.get ⟨i, h2⟩) := by
  induction rows generalizing cs with
  | nil =>
    simp [processRows] at h
    subst h
    simp
  | cons r rs ih =>
    rcases hr : processRow pf r with _ | c <;>
      rcases hrs : processRows pf rs with _ | cs' <;>
        rw [processRows, hr, hrs] at h <;> simp at h
    subst h
    obtain ⟨ihlen, ihget⟩ := ih cs' hrs
    refine ⟨by simp [ihlen], ?_⟩
    intro i h1 h2
    cases i with
    | zero => simpa using hr
    | succ n =>
      simp only [List.get_cons_succ]
      exact ihget n (by simpa using h1) (by simpa using h2)

/-- If every row is well formed the loop succeeds. -/
theorem processRows_isSome_of_forall {α : Type} (pf : String → Option α)
    (rows : List (List String)) (h : ∀ r ∈ rows, (processRow pf r).isSome) :
    ∃ cs, processRows pf rows = some cs := by
  rcases hps : processRows pf rows with _ | cs
  · obtain ⟨r, hmem, hr⟩ := (processRows_eq_none_iff pf rows).mp hps
    have := h r hmem
    rw [hr] at this
    simp at this
  · exact ⟨cs, rfl⟩

/-! ### Claim theorems -/

/-- C1: with a non-raising status and a header followed by N well-formed data
rows, the run succeeds and writes exactly N records, the i-th record being the
projection of the i-th data row (input order is preserved). -/
theorem run_count_and_order {α : Type} (pf : String → Option α) (st : Nat)
    (hdr : List String) (rows : List (List String))
    (fs : Option (List (CityRecord α)))
    (hst : ¬ raisesForStatus st)
    (hwf : ∀ r ∈ rows, (processRow pf r).isSome) :
    ∃ cs, run pf st (hdr :: rows) fs = (RunResult.ok cs, some cs) ∧
      cs.length = rows.length ∧
      ∀ i (h1 : i < rows.length) (h2 : i < cs.length),
        processRow pf (rows.get ⟨i, h1⟩) = some (cs.get ⟨i, h2⟩) := by
  obtain ⟨cs, hcs⟩ := processRows_isSome_of_forall pf rows hwf
  obtain ⟨hlen, hget⟩ := processRows_length_get pf rows cs hcs
  exact ⟨cs, by simp [run, hst, hcs], hlen, hget⟩

/-- Witness for C1 at status 200 and a concrete two-row body. -/
theorem run_count_and_order_witness :
    (¬ raisesForStatus 200) ∧ (∀ r ∈ exRows, (processRow parseDecimal r).isSome) ∧
    (∃ cs, run parseDecimal 200 (exHeader :: exRows) none = (RunResult.ok cs, some cs) ∧
      cs.length = exRows.length ∧
      ∀ i (h1 : i < exRows.length) (h2 : i < cs.length),
        processRow parseDecimal (exRows.get ⟨i, h1⟩) = some (cs.get ⟨i, h2⟩)) :=
  ⟨by decide, by decide,
    run_count_and_order parseDecimal 200 exHeader exRows none (by decide) (by decide)⟩

/-- C2: on a well-formed 9-column row whose latitude and longitude fields
parse, the produced record keeps column 0 as the city name and the parsed
columns 2 and 3 as `lat` and `long`. -/
theorem processRow_projection {α : Type} (pf : String → Option α)
    (c0 c1 c2 c3 c4 c5 c6 c7 c8 : String) (la lo : α)
    (h2 : pf c2 = some la) (h3 : pf c3 = some lo) :
    processRow pf [c0, c1, c2, c3, c4, c5, c6, c7, c8] = some ⟨c0, la, lo⟩ := by
  simp [processRow, h2, h3]

/-- Witness for C2 on the Tokyo example row. -/
theorem processRow_projection_witness :
    parseDecimal "35.6897" = some ⟨356897, 4⟩ ∧
    parseDecimal "139.6922" = some ⟨1396922, 4⟩ ∧
    processRow parseDecimal ["Tokyo", "Japan", "35.6897", "139.6922", "p", "q", "u", "v", "w"]
      = some ⟨"Tokyo", ⟨356897, 4⟩, ⟨1396922, 4⟩⟩ :=
  ⟨by decide, by decide,
    processRow_projection parseDecimal "Tokyo" "Japan" "35.6897" "139.6922"
      "p" "q" "u" "v" "w" ⟨356897, 4⟩ ⟨1396922, 4⟩ (by decide) (by decide)⟩

/-- C3 as stated is false: in a body whose only data row has 10 columns with
numeric latitude/longitude fields, no data row has fewer than 9 columns or an
invalid coordinate field, yet the run aborts with a malformed-row error. -/
theorem run_malformed_iff_cex :
    (run parseDecimal 200 [exHeader, exTenColRow] none).1 = RunResult.malformedRow ∧
    ¬ (∃ r ∈ [exTenColRow], r.length < 9 ∨ latLongBad parseDecimal r = true) := by
  decide

/-- C3 (amended): with a non-raising status, the run aborts with a
malformed-row error exactly when some data row does not have exactly 9 columns
or its latitude/longitude field is not a valid number; any such failure leaves
the output file untouched. -/
theorem run_malformed_iff {α : Type} (pf : String → Option α) (st : Nat)
    (hdr : List String) (rows : List (List String))
    (fs : Option (List (CityRecord α)))
    (hst : ¬ raisesForStatus st) :
    ((run pf st (hdr :: rows) fs).1 = RunResult.malformedRow ↔
      ∃ r ∈ rows, r.length ≠ 9 ∨ latLongBad pf r = true) ∧
    ((run pf st (hdr :: rows) fs).1 = RunResult.malformedRow →
      (run pf st (hdr :: rows) fs).2 = fs) := by
  have hiff : processRows pf rows = none ↔
      ∃ r ∈ rows, r.length ≠ 9 ∨ latLongBad pf r = true := by
    rw [processRows_eq_none_iff]
    constructor
    · rintro ⟨r, hmem, hr⟩
      exact ⟨r, hmem, (processRow_eq_none_iff pf r).mp hr⟩
    · rintro ⟨r, hmem, hr⟩
      exact ⟨r, hmem, (processRow_eq_none_iff pf r).mpr hr⟩
  rcases hps : processRows pf rows with _ | cs
  · constructor
    · have hex := hiff.mp hps
      simp [run, hst, hps, hex]
    · intro _
      simp [run, hst, hps]
  · have hne : ¬ ∃ r ∈ rows, r.length ≠ 9 ∨ latLongBad pf r = true := by
      intro hex
      rw [← hiff, hps] at hex
      exact Option.noConfusion hex
    constructor
    · simp [run, hst, hps, hne]
    · intro h
      simp [run, hst, hps] at h

/-- Witness for the amended C3 at a concrete malformed body. -/
theorem run_malformed_iff_witness :
    (¬ raisesForStatus 200) ∧
    (((run parseDecimal 200 (exHeader :: [exBadRow]) none).1 = RunResult.malformedRow ↔
        ∃ r ∈ [exBadRow], r.length ≠ 9 ∨ latLongBad parseDecimal r = true) ∧
      ((run parseDecimal 200 (exHeader :: [exBadRow]) none).1 = RunResult.malformedRow →
        (run parseDecimal 200 (exHeader :: [exBadRow]) none).2 = none)) :=
  ⟨by decide, run_malformed_iff parseDecimal 200 exHeader [exBadRow] none (by decide)⟩

/-- C4 as stated is false: a 300 status is not in the 2xx success range, yet
`raise_for_status` does not raise, the run completes and the output file is
written. -/
theorem run_httpError_of_raises_cex :
    ¬ (200 ≤ 300 ∧ 300 < 300) ∧
    run parseDecimal 300 (exHeader :: exRows) none
      = (RunResult.ok exRecords, some exRecords) := by
  decide

/-- C4 (amended): for every response status in the 4xx/5xx error range
(400–599), `raise_for_status` raises immediately — no retry — so the run stops
and the output file is neither created nor modified. -/
theorem run_httpError_of_raises {α : Type} (pf : String → Option α) (st : Nat)
    (body : List (List String)) (fs : Option (List (CityRecord α)))
    (hst : raisesForStatus st) :
    run pf st body fs = (RunResult.httpError st, fs) := by
  simp [run, hst]

/-- Witness for the amended C4 at status 404. -/
theorem run_httpError_of_raises_witness :
    raisesForStatus 404 ∧
    run parseDecimal 404 (exHeader :: exRows) none = (RunResult.httpError 404, none) :=
  ⟨by decide, run_httpError_of_raises parseDecimal 404 (exHeader :: exRows) none (by decide)⟩

/-- C5: if some data row carries a latitude or longitude field that is present
but not a valid number, the run aborts with a malformed-row error before any
output is written: the file at the output path is neither created nor
modified (the loop over all rows precedes the file open). -/
theorem run_badCoord_aborts {α : Type} (pf : String → Option α) (st : Nat)
    (hdr : List String) (rows : List (List String))
    (fs : Option (List (CityRecord α))) (r : List String)
    (hst : ¬ raisesForStatus st) (hmem : r ∈ rows)
    (hbad : (∃ s, r[2]? = some s ∧ pf s = none) ∨ (∃ s, r[3]? = some s ∧ pf s = none)) :
    run pf st (hdr :: rows) fs = (RunResult.malformedRow, fs) := by
  have hb : latLongBad pf r = true := by
    rcases hbad with ⟨s, hs, hpf⟩ | ⟨s, hs, hpf⟩ <;> simp [latLongBad, hs, hpf]
  have hr : processRow pf r = none :=
    (processRow_eq_none_iff pf r).mpr (Or.inr hb)
  have hps : processRows pf rows = none :=
    processRows_eq_none_of_mem pf rows r hmem hr
  simp [run, hst, hps]

/-- Witness for C5 on a row whose latitude field is `"abc"`. -/
theorem run_badCoord_aborts_witness :
    (¬ raisesForStatus 200) ∧ exBadRow ∈ [exBadRow] ∧
    ((∃ s, exBadRow[2]? = some s ∧ parseDecimal s = none) ∨
      (∃ s, exBadRow[3]? = some s ∧ parseDecimal s = none)) ∧
    run parseDecimal 200 (exHeader :: [exBadRow]) none = (RunResult.malformedRow, none) :=
  ⟨by decide, by decide, Or.inl ⟨"abc", by decide, by decide⟩,
    run_badCoord_aborts parseDecimal 200 exHeader [exBadRow] none exBadRow
      (by decide) (by decide) (Or.inl ⟨"abc", by decide, by decide⟩)⟩

/-- C6: the header row is discarded before projection: the run's outcome and
final file content are identical for any two header rows over the same data
rows, so no output record ever derives from the header row. -/
theorem run_header_irrelevant {α : Type} (pf : String → Option α) (st : Nat)
    (hdr1 hdr2 : List String) (rows : List (List String))
    (fs : Option (List (CityRecord α))) :
    run pf st (hdr1 :: rows) fs = run pf st (hdr2 :: rows) fs := rfl

/-- C7: on a successful run the file at the output path afterwards holds
exactly the serialized record sequence, whatever it held before: the final
content is fully determined by the records and independent of prior content. -/
theorem run_overwrites {α : Type} (pf : String → Option α) (st : Nat)
    (body : List (List String)) (fs1 fs2 : Option (List (CityRecord α)))
    (cs : List (CityRecord α))
    (h : (run pf st body fs1).1 = RunResult.ok cs) :
    (run pf st body fs1).2 = some cs ∧
    run pf st body fs2 = (RunResult.ok cs, some cs) := by
  by_cases hst : raisesForStatus st
  · simp [run, hst] at h
  rcases body with _ | ⟨hdr, rows⟩
  · simp [run, hst] at h
  rcases hps : processRows pf rows with _ | cs'
  · simp [run, hst, hps] at h
  · simp [run, hst, hps] at h
    subst h
    simp [run, hst, hps]

/-- Witness for C7: the same records are written over a stale file and over a
missing file. -/
theorem run_overwrites_witness :
    ((run parseDecimal 200 (exHeader :: exRows)
        (some [⟨"Old", ⟨0, 0⟩, ⟨0, 0⟩⟩])).1 = RunResult.ok exRecords) ∧
    ((run parseDecimal 200 (exHeader :: exRows)
        (some [⟨"Old", ⟨0, 0⟩, ⟨0, 0⟩⟩])).2 = some exRecords ∧
      run parseDecimal 200 (exHeader :: exRows) none
        = (RunResult.ok exRecords, some exRecords)) :=
  ⟨by decide,
    run_overwrites parseDecimal 200 (exHeader :: exRows)
      (some [⟨"Old", ⟨0, 0⟩, ⟨0, 0⟩⟩]) none exRecords (by decide)⟩

/-- C8: the pipeline is deterministic: two runs with equal statuses, equal
decoded bodies and equal prior file contents produce equal outcomes and equal
serialized output. -/
theorem run_deterministic {α : Type} (pf : String → Option α)
    (st1 st2 : Nat) (body1 body2 : List (List String))
    (fs1 fs2 : Option (List (CityRecord α)))
    (hs : st1 = st2) (hb : body1 = body2) (hf : fs1 = fs2) :
    run pf st1 body1 fs1 = run pf st2 body2 fs2 := by
  subst hs
  subst hb
  subst hf
  rfl

/-- Witness for C8 at a concrete input. -/
theorem run_deterministic_witness :
    (200 : Nat) = 200 ∧ exHeader :: exRows = exHeader :: exRows ∧
    (none : Option (List (CityRecord Decimal))) = none ∧
    run parseDecimal 200 (exHeader :: exRows) none
      = run parseDecimal 200 (exHeader :: exRows) none :=
  ⟨rfl, rfl, rfl,
    run_deterministic parseDecimal 200 200 (exHeader :: exRows) (exHeader :: exRows)
      none none rfl rfl rfl⟩

/-- C9: a data row with more than 9 columns also aborts the run with an error
before any output is written: the unpacking requires exactly 9 columns, not
merely at least 9. -/
theorem run_tooManyColumns {α : Type} (pf : String → Option α) (st : Nat)
    (hdr : List String) (rows : List (List String))
    (fs : Option (List (CityRecord α))) (r : List String)
    (hst : ¬ raisesForStatus st) (hmem : r ∈ rows) (hlen : 9 < r.length) :
    run pf st (hdr :: rows) fs = (RunResult.malformedRow, fs) := by
  have hr : processRow pf r = none :=
    (processRow_eq_none_iff pf r).mpr (Or.inl (by omega))
  have hps : processRows pf rows = none :=
    processRows_eq_none_of_mem pf rows r hmem hr
  simp [run, hst, hps]

/-- Witness for C9 on a 10-column row. -/
theorem run_tooManyColumns_witness :
    (¬ raisesForStatus 200) ∧ exTenColRow ∈ [exTenColRow] ∧ 9 < exTenColRow.length ∧
    run parseDecimal 200 (exHeader :: [exTenColRow]) none = (RunResult.malformedRow, none) :=
  ⟨by decide, by decide, by decide,
    run_tooManyColumns parseDecimal 200 exHeader [exTenColRow] none exTenColRow
      (by decide) (by decide) (by decide)⟩

/-- C10: an empty response body yields no CSV rows, so skipping the header
raises `StopIteration` and the run aborts with the output file neither created
nor modified. -/
theorem run_emptyBody {α : Type} (pf : String → Option α) (st : Nat)
    (fs : Option (List (CityRecord α))) (hst : ¬ raisesForStatus st) :
    run pf st [] fs = (RunResult.headerMissing, fs) := by
  simp [run, hst]

/-- Witness for C10 at status 200 with no prior file. -/
theorem run_emptyBody_witness :
    (¬ raisesForStatus 200) ∧
    run parseDecimal 200 ([] : List (List String)) none = (RunResult.headerMissing, none) :=
  ⟨by decide, run_emptyBody parseDecimal 200 none (by decide)⟩

end GPSInfo
